import Mathlib

/-!
# Verification of `PrismaSchemaUtilsService`

A shallow embedding of
`src/packages/amplication-server/src/core/prismaSchemaUtils/prismaSchemaUtils.service.ts`
(the Prisma-schema import core): the declaration tree, the field classifier
(`resolveFieldDataType`), the relation resolver (`isFkFieldOfARelation`,
`isNotAnnotatedRelationField`, `findRemoteRelatedModelAndField`), the four
naming-normalization operations, and the entity/field builder
(`convertPreparedSchemaForImportObjects` and the twelve
`convertPrismaXToEntityField` functions).

JavaScript conventions are embedded as follows: a function that `throw`s is
`Except String`; `undefined`-able values are `Option`; truthiness tests on
strings treat `""` as false; object mutation of the shared `preparedEntities`
array is explicit state passing of the entity list.

External collaborators of the service (the naming utilities in
`./schema-utils`, `pluralize`, the reserved-word list, and the constants
module) are not under `src/`; they are modelled from the spec, each with a
doc comment starting `Modelled from the spec:`.
-/

deriving instance DecidableEq for Except

namespace PrismaSchemaUtils

/-! ## Constants

Modelled from the spec and the source's usage: the `./constants` module is not
under `src/`. The spec calls `"id"` "the canonical primary-key identifier";
the type tags are the declaration-tree node tags the source filters on. -/

/-- Modelled from the spec: the primary-key attribute name (`@id`). -/
def ID_ATTRIBUTE_NAME : String := "id"

/-- Modelled from the spec: "the canonical primary-key identifier". -/
def ID_FIELD_NAME : String := "id"

/-- Modelled from the spec: the node tag of a Record-Type declaration. -/
def MODEL_TYPE_NAME : String := "model"

/-- Modelled from the spec: the node tag of an Enumeration declaration. -/
def ENUM_TYPE_NAME : String := "enum"

/-! ## Modelled naming collaborators

`formatModelName`, `formatFieldName`, `formatDisplayName`,
`filterOutAmplicationAttributes` and the id-type maps live in
`./schema-utils`; `pluralize` and `isReservedName` are external packages.
None are under `src/`. -/

/-- Uppercase the first character of a string. -/
def upperFirst (s : String) : String :=
  match s.data with
  | [] => ""
  | c :: cs => String.mk (c.toUpper :: cs)

/-- Lowercase the first character of a string. -/
def lowerFirst (s : String) : String :=
  match s.data with
  | [] => ""
  | c :: cs => String.mk (c.toLower :: cs)

/-- Modelled from the spec: the naming-utilities collaborator's canonical
Record-Type casing ("PascalCase singular form", spec §4.1; a deterministic
pure function, spec §6). Modelled as capitalizing the first character;
singularization is the identity on the singular names used in this file. -/
def formatModelName (s : String) : String := upperFirst s

/-- Modelled from the spec: the canonical field casing ("camelCase",
spec §4.1; a deterministic pure function, spec §6). Modelled as lowercasing
the first character. -/
def formatFieldName (s : String) : String := lowerFirst s

/-- Modelled from the spec: the display-name transform supplied by the naming
collaborator; a deterministic pure function (spec §6). Its exact output
decides no claim; modelled as the identity. -/
def formatDisplayName (s : String) : String := s

/-- Modelled from the spec: `pluralize(name)` used for the plural display
name; a deterministic pure transform (spec §6). Modelled as an "s" suffix. -/
def pluralizeWord (s : String) : String := s ++ "s"

/-- Modelled from the spec: `pluralize.isPlural`, the pluralization
collaborator's plural test ("already a plural word", spec §4.1); modelled as
an "s"-suffix test. The dictionary behavior is the collaborator's. -/
def isPluralWord (s : String) : Bool := s.endsWith "s"

/-- Modelled from the spec: the reserved-word membership test (spec §6). The
concrete word list is the collaborator's; only determinism matters to the
claims. Modelled as a small fixed set. -/
def isReservedName (s : String) : Bool := s == "user" || s == "import"

/-- Modelled from the spec: drops Amplication-internal attribute renderings
from the serialized attribute list (spec §4.4 "surviving (non-internal)
Attribute"). The spec does not enumerate the drop set and no claim depends on
it; modelled as the identity filter. -/
def filterOutAmplicationAttributes (attrs : List String) : List String := attrs

/-- Modelled from the spec: maps a default-value generator name to the id
descriptor's `idType` (spec §4.4); the concrete table is outside `src/` and
no claim depends on its values. Modelled as the identity. -/
def idTypePropertyMap (s : String) : String := s

/-- Modelled from the spec: maps a built-in field type tag to the id
descriptor's `idType` (spec §4.4); concrete table outside `src/`. Modelled
as the identity. -/
def idTypePropertyMapByFieldType (s : String) : String := s

/-! ## Declaration tree (the `@mrleebo/prisma-ast` shapes the source reads) -/

/-- The value of an attribute argument (`Argument.value` in the source):
a string literal, a function-call marker (`Func`, e.g. `now()`), a
`key: value` pair (`KeyValue`), or a `RelationArray` of identifiers. -/
inductive AttrValue where
  | str (s : String)
  | func (name : String)
  | keyValue (key : String) (value : AttrValue)
  | array (args : List String)
deriving DecidableEq, Repr

/-- An attribute argument. -/
structure Argument where
  value : AttrValue
deriving DecidableEq, Repr

/-- An attribute (`@...` on a field, `@@...` on a model). `kind` is the tag
the source compares against `MODEL_TYPE_NAME` when serializing. -/
structure Attribute where
  name : String
  kind : String
  args : List Argument
deriving DecidableEq, Repr

/-- A field of a model. -/
structure Field where
  name : String
  fieldType : String
  optional : Bool
  array : Bool
  attributes : List Attribute
deriving DecidableEq, Repr

/-- An enumerator of an enum declaration. -/
structure Enumerator where
  name : String
deriving DecidableEq, Repr

/-- An enum declaration. -/
structure EnumDecl where
  name : String
  enumerators : List Enumerator
deriving DecidableEq, Repr

/-- A model property: a field or a block-level attribute. -/
inductive Property where
  | field (f : Field)
  | attr (a : Attribute)
deriving DecidableEq, Repr

/-- A model (Record-Type) declaration. -/
structure Model where
  name : String
  properties : List Property
deriving DecidableEq, Repr

/-- A top-level declaration. Non-model, non-enum blocks (datasource,
generator) are filtered out by every source access and are omitted. -/
inductive Declaration where
  | model (m : Model)
  | enumDecl (e : EnumDecl)
deriving DecidableEq, Repr

/-- The schema: the ordered declaration list. -/
structure Schema where
  list : List Declaration
deriving DecidableEq, Repr

/-- `schema.list.filter(item => item.type === MODEL_TYPE_NAME)`. -/
def modelsOf (schema : Schema) : List Model :=
  schema.list.filterMap fun d =>
    match d with
    | .model m => some m
    | _ => none

/-- `schema.list.filter(item => item.type === ENUM_TYPE_NAME)`. -/
def enumsOf (schema : Schema) : List EnumDecl :=
  schema.list.filterMap fun d =>
    match d with
    | .enumDecl e => some e
    | _ => none

/-- `model.properties.filter(property => property.type === FIELD_TYPE_NAME)`. -/
def fieldsOf (model : Model) : List Field :=
  model.properties.filterMap fun p =>
    match p with
    | .field f => some f
    | _ => none

/-- `model.properties.filter(prop => prop.type === "attribute")`. -/
def attrsOf (model : Model) : List Attribute :=
  model.properties.filterMap fun p =>
    match p with
    | .attr a => some a
    | _ => none

/-! ## The field classifier (`resolveFieldDataType`) -/

/-- The twelve data-type categories (`EnumDataType`). In the source this is a
string-valued enum, so every member is truthy. -/
inductive EnumDataType where
  | Id
  | Lookup
  | OptionSet
  | MultiSelectOptionSet
  | CreatedAt
  | UpdatedAt
  | SingleLineText
  | WholeNumber
  | DecimalNumber
  | Boolean
  | DateTime
  | Json
deriving DecidableEq, Repr

/-- `idType` case: the field carries an `@id` attribute. -/
def idTypeCase (field : Field) : Option EnumDataType :=
  if field.attributes.any (fun attr => attr.name == ID_ATTRIBUTE_NAME) then
    some .Id
  else none

/-- `lookupRelationType` case: the field carries a `@relation` attribute. -/
def lookupRelationTypeCase (field : Field) : Option EnumDataType :=
  if field.attributes.any (fun attr => attr.name == "relation") then
    some .Lookup
  else none

/-- `lookupModelType` case: some declared model's canonical name equals the
canonical form of the field's declared type. -/
def lookupModelTypeCase (schema : Schema) (field : Field) : Option EnumDataType :=
  if (modelsOf schema).any
      (fun model => formatModelName model.name == formatModelName field.fieldType) then
    some .Lookup
  else none

/-- The condition of the `createAtType` case: the field has a `@default`
attribute one of whose arguments is a function-call marker named `now`.
(`(arg.value as Func).name === "now"`: a non-`Func` value has no `name`.) -/
def hasDefaultNowArg (field : Field) : Bool :=
  match field.attributes.find? (fun attr => attr.name == "default") with
  | some attr => attr.args.any fun arg =>
      match arg.value with
      | .func n => n == "now"
      | _ => false
  | none => false

/-- `createAtType` case. -/
def createAtTypeCase (field : Field) : Option EnumDataType :=
  if hasDefaultNowArg field then some .CreatedAt else none

/-- `updatedAtType` case: an `@updatedAt` attribute, or a `@default(now())`. -/
def updatedAtTypeCase (field : Field) : Option EnumDataType :=
  if field.attributes.any (fun attr => attr.name == "updatedAt")
      || hasDefaultNowArg field then
    some .UpdatedAt
  else none

/-- `optionSetType` case: some declared enum's name equals the field's
declared type. The source does not consult the array flag here. -/
def optionSetTypeCase (schema : Schema) (field : Field) : Option EnumDataType :=
  if (enumsOf schema).any (fun enumItem => enumItem.name == field.fieldType) then
    some .OptionSet
  else none

/-- `multiSelectOptionSetType` case: some declared enum's name equals the
field's declared type and the field is array-valued (`field.array || false`). -/
def multiSelectOptionSetTypeCase (schema : Schema) (field : Field) : Option EnumDataType :=
  if (enumsOf schema).any
      (fun enumItem => enumItem.name == field.fieldType && field.array) then
    some .MultiSelectOptionSet
  else none

/-- `scalarType` case: the built-in scalar tag mapping. -/
def scalarTypeCase (field : Field) : Option EnumDataType :=
  if field.fieldType == "String" then some .SingleLineText
  else if field.fieldType == "Int" then some .WholeNumber
  else if field.fieldType == "Float" then some .DecimalNumber
  else if field.fieldType == "Boolean" then some .Boolean
  else if field.fieldType == "DateTime" then some .DateTime
  else if field.fieldType == "Json" then some .Json
  else none

/-- The ordered case list of `resolveFieldDataType`: the first case returning
a (truthy) value wins; the final case throws `Unsupported data type`. -/
def firstMatchedCase (schema : Schema) (field : Field) : Option EnumDataType :=
  (idTypeCase field).orElse fun _ =>
  (lookupRelationTypeCase field).orElse fun _ =>
  (lookupModelTypeCase schema field).orElse fun _ =>
  (optionSetTypeCase schema field).orElse fun _ =>
  (multiSelectOptionSetTypeCase schema field).orElse fun _ =>
  (createAtTypeCase field).orElse fun _ =>
  (updatedAtTypeCase field).orElse fun _ =>
  scalarTypeCase field

/-- `resolveFieldDataType(schema, field)`. -/
def resolveFieldDataType (schema : Schema) (field : Field) : Except String EnumDataType :=
  match firstMatchedCase schema field with
  | some d => .ok d
  | none => .error ("Unsupported data type: " ++ field.fieldType)

/-! ## Relation resolver -/

/-- `isNotAnnotatedRelationField(schema, field)`: the field's type matches a
declared model (comparing `formatModelName(model.name)` against
`formatFieldName(field.fieldType)`, as written in the source) and the field
either has no `@relation` attribute, or has a `@relation` attribute carrying
a string (relation-name) argument. -/
def isNotAnnotatedRelationField (schema : Schema) (field : Field) : Bool :=
  let relationAttribute :=
    field.attributes.any (fun attr => attr.name == "relation")
  let hasRelationAttributeWithRelationName :=
    field.attributes.any fun attr =>
      attr.name == "relation" &&
        attr.args.any fun arg =>
          match arg.value with
          | .str _ => true
          | _ => false
  let fieldModelType :=
    (modelsOf schema).any fun modelItem =>
      formatModelName modelItem.name == formatFieldName field.fieldType
  (!relationAttribute && fieldModelType) ||
    (fieldModelType && hasRelationAttributeWithRelationName)

/-- Does this argument's value carry `key: "fields"` with a relation array
listing `name`? In the source the membership test is
`args.find(argName => argName === field.name)`, whose result is used as a
truthy value, so a hit on the empty string does not count. A `fields` key
whose value is not a `RelationArray` would make the source throw a
`TypeError`; such malformed attributes do not occur in well-formed schemas
and are treated as non-matches here. -/
def argListsFieldName (name : String) (arg : Argument) : Bool :=
  match arg.value with
  | .keyValue "fields" (.array names) =>
      names.any (fun argName => argName == name && argName != "")
  | _ => false

/-- Does `modelField` carry a `@relation` attribute whose `fields` argument
lists `name`? -/
def fieldRefsAsFk (name : String) (modelField : Field) : Bool :=
  modelField.attributes.any fun attr =>
    attr.name == "relation" && attr.args.any (argListsFieldName name)

/-- `isFkFieldOfARelation(schema, model, field)`: the number of fields of
`model` (the source filters all fields, the current one included) carrying a
`@relation` attribute whose `fields` argument lists `field.name` is exactly
one. When it is more than one the source logs an error (twice) and, falling
through, still returns `length === 1`, i.e. `false`. -/
def isFkFieldOfARelation (_schema : Schema) (model : Model) (field : Field) : Bool :=
  let relationFiledWithReference :=
    (fieldsOf model).filter (fieldRefsAsFk field.name)
  relationFiledWithReference.length == 1

/-- The condition under which `isFkFieldOfARelation` reaches its
error-logging branch: more than one relation field claims the column. -/
def fkConflictLogged (model : Model) (field : Field) : Bool :=
  ((fieldsOf model).filter (fieldRefsAsFk field.name)).length > 1

/-- The relation name argument the source extracts at the top of
`findRemoteRelatedModelAndField`. The source iterates `field.attributes`
with a `find` whose callback returns `undefined` and assigns
`relationAttributeName` on every step, so after the loop the variable holds
the value computed from the **last** attribute: if that attribute is a
`@relation`, the first string-valued argument's value, else a falsy value.
The subsequent `if (relationAttributeName)` is a truthiness test, so an
empty-string name also counts as absent. -/
def relationAttributeNameOf (field : Field) : Option String :=
  match field.attributes.getLast? with
  | none => none
  | some attr =>
      if attr.name == "relation" then
        match attr.args.find? (fun arg =>
            match arg.value with
            | .str _ => true
            | _ => false) with
        | some ⟨.str s⟩ => if s == "" then none else some s
        | _ => none
      else none

/-- Does `f` carry a `@relation` attribute one of whose argument values is
exactly the string `rname` (`arg.value === relationAttributeName`)? -/
def hasRelationNamed (rname : String) (f : Field) : Bool :=
  f.attributes.any fun attr =>
    attr.name == "relation" &&
      attr.args.any (fun arg => arg.value == AttrValue.str rname)

/-- The implicit back-reference candidates: fields of the remote model whose
type canonically references `model` and which carry no `@relation`
attribute. -/
def implicitBackRefCands (model : Model) (remoteModel : Model) : List Field :=
  (fieldsOf remoteModel).filter fun remoteField =>
    formatModelName remoteField.fieldType == formatModelName model.name &&
      !(remoteField.attributes.any (fun attr => attr.name == "relation"))

/-- `findRemoteRelatedModelAndField(schema, model, field)`.

Throws when the remote model is missing, and — in the implicit
back-reference branch only — when zero or more than one candidate exists.
In the named branch the source takes the first matching remote field
(`find`) and returns `{remoteModel, remoteField}` even when no field
matched, in which case `remoteField` is `undefined` (`none` here). -/
def findRemoteRelatedModelAndField (schema : Schema) (model : Model) (field : Field) :
    Except String (Model × Option Field) :=
  let relationAttributeName := relationAttributeNameOf field
  match (modelsOf schema).find? (fun item =>
      formatModelName item.name == formatModelName field.fieldType) with
  | none =>
      .error ("Model " ++ field.fieldType ++
        " not found in the schema. Please check your schema.prisma file")
  | some remoteModel =>
      match relationAttributeName with
      | some rname =>
          let remoteField := (fieldsOf remoteModel).find? (hasRelationNamed rname)
          .ok (remoteModel, remoteField)
      | none =>
          let remoteFields := implicitBackRefCands model remoteModel
          if remoteFields.length > 1 then
            .error ("Multiple fields found in model " ++ remoteModel.name ++
              " that reference " ++ model.name)
          else
            match remoteFields with
            | [f] => .ok (remoteModel, some f)
            | _ =>
                .error ("No field found in model " ++ remoteModel.name ++
                  " that reference " ++ model.name)

/-! ## Attribute serialization (`prepareAttributes`) -/

/-- JavaScript template-literal coercion of a `KeyValue`'s value
(`${arg.value.value}`): a string renders as itself, any object (a `Func`,
`KeyValue` or `RelationArray`) renders as `[object Object]`. -/
def jsValueToString : AttrValue → String
  | .str s => s
  | _ => "[object Object]"

/-- Rendering of one attribute argument inside `prepareAttributes`. A `Func`
value matches neither the `array` nor the `keyValue` branch and is not a
string, so the callback returns `undefined`, which `join` renders as the
empty string. -/
def renderArg (arg : Argument) : String :=
  match arg.value with
  | .array args => "[" ++ String.intercalate ", " args ++ "]"
  | .keyValue k v => k ++ ": " ++ jsValueToString v
  | .str s => s
  | .func _ => ""

/-- `prepareAttributes(attributes)`: each attribute renders with a doubled
sigil when its kind is the model kind, a single sigil otherwise; an attribute
without arguments renders bare (in the source such an attribute carries no
`args` array at all, which is what the first guard detects). -/
def prepareAttributes (attributes : List Attribute) : List String :=
  attributes.map fun attrItem =>
    let sigil := if attrItem.kind == MODEL_TYPE_NAME then "@@" else "@"
    if attrItem.args.isEmpty then
      sigil ++ attrItem.name
    else
      sigil ++ attrItem.name ++ "(" ++
        String.intercalate ", " (attrItem.args.map renderArg) ++ ")"

/-! ## Output descriptors -/

/-- The category-specific `properties` payload of a field descriptor. The
source stores a plain JSON object; the shapes it actually writes are these. -/
inductive FieldProps where
  | empty
  | dateTime (timeZone : String) (dateOnly : Bool)
  | decimalNumber (minimumValue maximumValue precision : Int)
  | wholeNumber (minimumValue maximumValue : Int)
  | singleLineText (maxLength : Int)
  | idProps (idType : String)
  | optionSet (options : List (String × String))
  | lookup (relatedEntityId : String) (allowMultipleSelection : Bool)
deriving DecidableEq, Repr

/-- `CreateBulkFieldsInput`: one field descriptor. The three
`relatedField...` members are set only on Lookup fields. -/
structure CreateBulkFieldsInput where
  name : String
  displayName : String
  dataType : EnumDataType
  required : Bool
  unique : Bool
  searchable : Bool
  description : String
  properties : FieldProps
  customAttributes : String
  relatedFieldName : Option String
  relatedFieldDisplayName : Option String
  relatedFieldAllowMultipleSelection : Option Bool
deriving DecidableEq, Repr

/-- `CreateBulkEntitiesInput`: one entity descriptor. -/
structure CreateBulkEntitiesInput where
  id : String
  name : String
  displayName : String
  pluralDisplayName : String
  description : String
  customAttributes : String
  fields : List CreateBulkFieldsInput
deriving DecidableEq, Repr

/-- `prepareEntity(model)`, with the `cuid()` call abstracted into the `id`
argument (the only nondeterministic input of the pipeline). -/
def prepareEntity (id : String) (model : Model) : CreateBulkEntitiesInput :=
  { id := id
    name := model.name
    displayName := formatDisplayName model.name
    pluralDisplayName := pluralizeWord model.name
    description := ""
    customAttributes :=
      String.intercalate " " (prepareAttributes (attrsOf model))
    fields := [] }

/-- `createOneEntityFieldCommonProperties(field, fieldDataType)`. Note
`required: field.optional || false` — the declared optionality flag itself,
not its negation. -/
def createOneEntityFieldCommonProperties (field : Field) (fieldDataType : EnumDataType) :
    CreateBulkFieldsInput :=
  { name := field.name
    displayName := formatDisplayName field.name
    dataType := fieldDataType
    required := field.optional
    unique := field.attributes.any (fun attr => attr.name == "unique")
    searchable := false
    description := ""
    properties := .empty
    customAttributes :=
      String.intercalate " "
        ((filterOutAmplicationAttributes (prepareAttributes field.attributes)).filter
          (fun attr => attr != "@default()"))
    relatedFieldName := none
    relatedFieldDisplayName := none
    relatedFieldAllowMultipleSelection := none }

/-- Mutation of the entity found by `preparedEntities.find(name === ...)`:
push `fd` onto the fields of the first entity with the given name. -/
def pushFieldToEntity (name : String) (fd : CreateBulkFieldsInput) :
    List CreateBulkEntitiesInput → List CreateBulkEntitiesInput
  | [] => []
  | e :: rest =>
      if e.name == name then
        { e with fields := e.fields ++ [fd] } :: rest
      else
        e :: pushFieldToEntity name fd rest

/-- The shared prologue of every `convertPrismaXToEntityField`: find the
entity of `model` or throw `Entity ... not found`. -/
def findEntityOrError (model : Model) (preparedEntities : List CreateBulkEntitiesInput) :
    Except String CreateBulkEntitiesInput :=
  match preparedEntities.find? (fun entity => entity.name == model.name) with
  | some entity => .ok entity
  | none => .error ("Entity " ++ model.name ++ " not found")

/-! ## The twelve converters (`convertPrismaXToEntityField`)

Each source converter finds the entity for `model` in the shared
`preparedEntities` array (throwing `Entity ... not found` when absent),
builds the common descriptor, sets the category payload and pushes the
descriptor onto the found entity's `fields`. The in-place mutation is
embedded as returning the updated entity list. -/

def convertPrismaBooleanToEntityField (_schema : Schema) (model : Model) (field : Field)
    (preparedEntities : List CreateBulkEntitiesInput) :
    Except String (List CreateBulkEntitiesInput) := do
  let _ ← findEntityOrError model preparedEntities
  let entityField := createOneEntityFieldCommonProperties field .Boolean
  return pushFieldToEntity model.name entityField preparedEntities

def convertPrismaCreatedAtToEntityField (_schema : Schema) (model : Model) (field : Field)
    (preparedEntities : List CreateBulkEntitiesInput) :
    Except String (List CreateBulkEntitiesInput) := do
  let _ ← findEntityOrError model preparedEntities
  let entityField := createOneEntityFieldCommonProperties field .CreatedAt
  return pushFieldToEntity model.name entityField preparedEntities

def convertPrismaUpdatedAtToEntityField (_schema : Schema) (model : Model) (field : Field)
    (preparedEntities : List CreateBulkEntitiesInput) :
    Except String (List CreateBulkEntitiesInput) := do
  let _ ← findEntityOrError model preparedEntities
  let entityField := createOneEntityFieldCommonProperties field .UpdatedAt
  return pushFieldToEntity model.name entityField preparedEntities

def convertPrismaDateTimeToEntityField (_schema : Schema) (model : Model) (field : Field)
    (preparedEntities : List CreateBulkEntitiesInput) :
    Except String (List CreateBulkEntitiesInput) := do
  let _ ← findEntityOrError model preparedEntities
  let entityField :=
    { createOneEntityFieldCommonProperties field .DateTime with
        properties := .dateTime "localTime" false }
  return pushFieldToEntity model.name entityField preparedEntities

def convertPrismaDecimalNumberToEntityField (_schema : Schema) (model : Model) (field : Field)
    (preparedEntities : List CreateBulkEntitiesInput) :
    Except String (List CreateBulkEntitiesInput) := do
  let _ ← findEntityOrError model preparedEntities
  let entityField :=
    { createOneEntityFieldCommonProperties field .DecimalNumber with
        properties := .decimalNumber 0 99999999999 8 }
  return pushFieldToEntity model.name entityField preparedEntities

def convertPrismaWholeNumberToEntityField (_schema : Schema) (model : Model) (field : Field)
    (preparedEntities : List CreateBulkEntitiesInput) :
    Except String (List CreateBulkEntitiesInput) := do
  let _ ← findEntityOrError model preparedEntities
  let entityField :=
    { createOneEntityFieldCommonProperties field .WholeNumber with
        properties := .wholeNumber 0 99999999999 }
  return pushFieldToEntity model.name entityField preparedEntities

def convertPrismaSingleLineTextToEntityField (_schema : Schema) (model : Model) (field : Field)
    (preparedEntities : List CreateBulkEntitiesInput) :
    Except String (List CreateBulkEntitiesInput) := do
  let _ ← findEntityOrError model preparedEntities
  let entityField :=
    { createOneEntityFieldCommonProperties field .SingleLineText with
        properties := .singleLineText 256 }
  return pushFieldToEntity model.name entityField preparedEntities

def convertPrismaJsonToEntityField (_schema : Schema) (model : Model) (field : Field)
    (preparedEntities : List CreateBulkEntitiesInput) :
    Except String (List CreateBulkEntitiesInput) := do
  let _ ← findEntityOrError model preparedEntities
  let entityField := createOneEntityFieldCommonProperties field .Json
  return pushFieldToEntity model.name entityField preparedEntities

/-- The `idType` string drawn from the first argument of `@default(...)`:
`(args[0].value as Func).name || "cuid"` — a non-`Func` first argument or an
empty function name falls back to `"cuid"`. An empty `args` array would make
the source throw a `TypeError` on `args[0].value`. -/
def idTypeOfDefaultArgs : List Argument → Except String String
  | [] => .error "TypeError: Cannot read properties of undefined (reading value)"
  | arg :: _ =>
      match arg.value with
      | .func n => .ok (if n == "" then "cuid" else n)
      | _ => .ok "cuid"

def convertPrismaIdToEntityField (_schema : Schema) (model : Model) (field : Field)
    (preparedEntities : List CreateBulkEntitiesInput) :
    Except String (List CreateBulkEntitiesInput) := do
  let _ ← findEntityOrError model preparedEntities
  let common := createOneEntityFieldCommonProperties field .Id
  match field.attributes.find? (fun attr => attr.name == "default") with
  | none =>
      let entityField :=
        { common with properties := .idProps (idTypePropertyMapByFieldType field.fieldType) }
      return pushFieldToEntity model.name entityField preparedEntities
  | some defaultIdAttribute =>
      let idType ← idTypeOfDefaultArgs defaultIdAttribute.args
      let entityField :=
        { common with properties := .idProps (idTypePropertyMap idType) }
      return pushFieldToEntity model.name entityField preparedEntities

/-- The `{label, value}` list built from an enum's enumerators; label and
value are both the enumerator name, in declaration order. -/
def enumOptionsOf (e : EnumDecl) : List (String × String) :=
  e.enumerators.map fun enumerator => (enumerator.name, enumerator.name)

/-- `convertPrismaOptionSetToEntityField`: looks the enum up by the canonical
form of the field's **declared type**; throws `Enum <field name> not found`
otherwise (the error message uses the field's name). -/
def convertPrismaOptionSetToEntityField (schema : Schema) (model : Model) (field : Field)
    (preparedEntities : List CreateBulkEntitiesInput) :
    Except String (List CreateBulkEntitiesInput) := do
  let _ ← findEntityOrError model preparedEntities
  let common := createOneEntityFieldCommonProperties field .OptionSet
  match (enumsOf schema).find? (fun item =>
      formatModelName item.name == formatModelName field.fieldType) with
  | none => .error ("Enum " ++ field.name ++ " not found")
  | some enumOfTheField =>
      let entityField :=
        { common with properties := .optionSet (enumOptionsOf enumOfTheField) }
      return pushFieldToEntity model.name entityField preparedEntities

/-- `convertPrismaMultiSelectOptionSetToEntityField`: the source looks the
enum up by the field's **name** (`item.name === field.name`), not by its
declared type. -/
def convertPrismaMultiSelectOptionSetToEntityField (schema : Schema) (model : Model)
    (field : Field) (preparedEntities : List CreateBulkEntitiesInput) :
    Except String (List CreateBulkEntitiesInput) := do
  let _ ← findEntityOrError model preparedEntities
  let common := createOneEntityFieldCommonProperties field .MultiSelectOptionSet
  match (enumsOf schema).find? (fun item => item.name == field.name) with
  | none => .error ("Enum " ++ field.name ++ " not found")
  | some enumOfTheField =>
      let entityField :=
        { common with properties := .optionSet (enumOptionsOf enumOfTheField) }
      return pushFieldToEntity model.name entityField preparedEntities

/-- `convertPrismaLookupToEntityField`. After resolution the source reads
`remoteField` without a `undefined` check (the `if (!remoteModelAndField)`
guard can never fire, since the helper either throws or returns an object),
so a missing remote field surfaces as a runtime `TypeError`; similarly for a
missing related entity. -/
def convertPrismaLookupToEntityField (schema : Schema) (model : Model) (field : Field)
    (preparedEntities : List CreateBulkEntitiesInput) :
    Except String (List CreateBulkEntitiesInput) := do
  let _ ← findEntityOrError model preparedEntities
  let entityField := createOneEntityFieldCommonProperties field .Lookup
  let (remoteModel, remoteFieldOpt) ← findRemoteRelatedModelAndField schema model field
  match remoteFieldOpt with
  | none => .error "TypeError: Cannot read properties of undefined (reading name)"
  | some remoteField =>
      let relatedField := createOneEntityFieldCommonProperties remoteField .Lookup
      let entityField :=
        { entityField with
            relatedFieldName := some relatedField.name
            relatedFieldDisplayName := some relatedField.displayName
            relatedFieldAllowMultipleSelection := some remoteField.array }
      match preparedEntities.find? (fun entity => entity.name == remoteModel.name) with
      | none => .error "TypeError: Cannot read properties of undefined (reading id)"
      | some relatedEntity =>
          let entityField :=
            { entityField with properties := .lookup relatedEntity.id field.array }
          return pushFieldToEntity model.name entityField preparedEntities

/-! ## The four normalization operations

The source applies builder mutations against the live tree; each pass only
reads parts of the tree it does not modify (field renames never change
attribute contents, model names or enum names, and field-type rewrites never
change names), so each pass is embedded as a pure transform of the schema it
received. Passes whose guards invoke the classifier can throw its
`Unsupported data type` error and are therefore `Except`-valued. -/

/-- A quoted string literal, as the builder stores `"name"` arguments. -/
def quoted (s : String) : String := "\"" ++ s ++ "\""

/-- A `@map`/`@@map` attribute holding the quoted `original` name. -/
def mapAttribute (kind : String) (original : String) : Attribute :=
  { name := "map", kind := kind, args := [⟨.str (quoted original)⟩] }

/-- `handleModelNamesRenaming`: an invalid model name (plural, contains an
underscore, lowercase-initial, or reserved) receives a `@@map` block
attribute holding the original name and is rewritten to its canonical form. -/
def handleModelNamesRenaming (schema : Schema) : Schema :=
  { list := schema.list.map fun d =>
      match d with
      | .enumDecl _ => d
      | .model model =>
          let isInvalidModelName :=
            isPluralWord model.name || model.name.contains '_' ||
              !(match model.name.data with
                | c :: _ => 'A' ≤ c && c ≤ 'Z'
                | [] => false) ||
              isReservedName (model.name.toLower.trim)
          if isInvalidModelName then
            .model { model with
              properties := model.properties ++
                [.attr (mapAttribute MODEL_TYPE_NAME model.name)]
              name := formatModelName model.name }
          else d }

/-- The per-field step of `handleFieldNamesRenaming`. Fields carrying `@id`
are filtered out of this pass. The source computes `isEnumFieldType` by
calling the (pure) classifier twice; a single evaluation is equivalent, and
its `Unsupported data type` error propagates exactly as the first call's
would. -/
def renameFieldIfNeeded (schema : Schema) (model : Model) (field : Field) :
    Except String Field := do
  if field.attributes.any (fun attr => attr.name == ID_ATTRIBUTE_NAME) then
    return field
  let isFkHolder := isFkFieldOfARelation schema model field
  let isInvalidFieldName :=
    field.name.contains '_' || isReservedName (field.name.toLower.trim)
  let dt ← resolveFieldDataType schema field
  let isEnumFieldType := dt = .OptionSet || dt = .MultiSelectOptionSet
  if isInvalidFieldName && !isEnumFieldType && !isFkHolder then
    return { field with
      attributes := field.attributes ++ [mapAttribute "field" field.name]
      name := formatFieldName field.name }
  return field

/-- `handleFieldNamesRenaming`. -/
def handleFieldNamesRenaming (schema : Schema) : Except String Schema := do
  let list ← schema.list.mapM fun d =>
    match d with
    | .model model => do
        let props ← model.properties.mapM fun p =>
          match p with
          | .field f => do
              return Property.field (← renameFieldIfNeeded schema model f)
          | .attr _ => pure p
        return Declaration.model { model with properties := props }
    | _ => pure d
  return { list := list }

/-- The per-field step of `handleFieldTypesRenaming`: a field that is neither
enum-classified nor scalar-classified has its declared type rewritten to the
canonical model form. The source evaluates eight separate classifier
wrappers; the classifier is pure, so one evaluation is equivalent. -/
def retypeFieldIfNeeded (schema : Schema) (field : Field) : Except String Field := do
  let dt ← resolveFieldDataType schema field
  let isEnumFieldType := dt = .OptionSet || dt = .MultiSelectOptionSet
  let isScalarFieldType :=
    dt = .SingleLineText || dt = .WholeNumber || dt = .DecimalNumber ||
      dt = .Boolean || dt = .DateTime || dt = .Json
  if !isEnumFieldType && !isScalarFieldType then
    return { field with fieldType := formatModelName field.fieldType }
  return field

/-- `handleFieldTypesRenaming`. -/
def handleFieldTypesRenaming (schema : Schema) : Except String Schema := do
  let list ← schema.list.mapM fun d =>
    match d with
    | .model model => do
        let props ← model.properties.mapM fun p =>
          match p with
          | .field f => do
              return Property.field (← retypeFieldIfNeeded schema f)
          | .attr _ => pure p
        return Declaration.model { model with properties := props }
    | _ => pure d
  return { list := list }

/-- The per-field step of `handleIdField`: a field without `@id` that is
named exactly `"id"` gets a `@map` attribute holding the quoted string
`"<ModelName>Id"` — the source passes `` `"${model.name}Id"` ``, the **new**
name — and is renamed to `<ModelName>Id`; a field with `@id` not named
`"id"` gets a `@map` attribute holding its (quoted) original name and is
renamed to `"id"`. -/
def renameIdField (model : Model) (field : Field) : Field :=
  let isIdField := field.attributes.any (fun attr => attr.name == ID_ATTRIBUTE_NAME)
  if !isIdField && field.name == ID_FIELD_NAME then
    { field with
      attributes := field.attributes ++ [mapAttribute "field" (model.name ++ "Id")]
      name := model.name ++ "Id" }
  else if isIdField && field.name != ID_FIELD_NAME then
    { field with
      attributes := field.attributes ++ [mapAttribute "field" field.name]
      name := ID_FIELD_NAME }
  else field

/-- `handleIdField`. -/
def handleIdField (schema : Schema) : Schema :=
  { list := schema.list.map fun d =>
      match d with
      | .model model =>
          .model { model with
            properties := model.properties.map fun p =>
              match p with
              | .field f => .field (renameIdField model f)
              | .attr _ => p }
      | _ => d }

/-- `processSchema(...this.operations)`: the fixed four-pass pipeline, in
declaration order. -/
def processSchema (schema : Schema) : Except String Schema := do
  let s1 := handleModelNamesRenaming schema
  let s2 ← handleFieldNamesRenaming s1
  let s3 ← handleFieldTypesRenaming s2
  return handleIdField s3

/-! ## The entity/field builder -/

/-- The per-field dispatch of `convertPreparedSchemaForImportObjects`:
foreign-key storage columns and unannotated relation fields are skipped;
otherwise each guard in the source calls the classifier (the first guard's
evaluation raises the `Unsupported data type` error) and, the classifier
being deterministic, exactly one of the twelve converters runs, in the
source's guard order. -/
def handleField (schema : Schema) (model : Model) (field : Field)
    (entities : List CreateBulkEntitiesInput) :
    Except String (List CreateBulkEntitiesInput) :=
  if isFkFieldOfARelation schema model field then .ok entities
  else if isNotAnnotatedRelationField schema field then .ok entities
  else
    (resolveFieldDataType schema field) >>= fun dt =>
    (if dt = .Boolean then
      convertPrismaBooleanToEntityField schema model field entities
     else pure entities) >>= fun entities =>
    (if dt = .CreatedAt then
      convertPrismaCreatedAtToEntityField schema model field entities
     else pure entities) >>= fun entities =>
    (if dt = .UpdatedAt then
      convertPrismaUpdatedAtToEntityField schema model field entities
     else pure entities) >>= fun entities =>
    (if dt = .DateTime then
      convertPrismaDateTimeToEntityField schema model field entities
     else pure entities) >>= fun entities =>
    (if dt = .DecimalNumber then
      convertPrismaDecimalNumberToEntityField schema model field entities
     else pure entities) >>= fun entities =>
    (if dt = .WholeNumber then
      convertPrismaWholeNumberToEntityField schema model field entities
     else pure entities) >>= fun entities =>
    (if dt = .SingleLineText then
      convertPrismaSingleLineTextToEntityField schema model field entities
     else pure entities) >>= fun entities =>
    (if dt = .Json then
      convertPrismaJsonToEntityField schema model field entities
     else pure entities) >>= fun entities =>
    (if dt = .Id then
      convertPrismaIdToEntityField schema model field entities
     else pure entities) >>= fun entities =>
    (if dt = .OptionSet then
      convertPrismaOptionSetToEntityField schema model field entities
     else pure entities) >>= fun entities =>
    (if dt = .MultiSelectOptionSet then
      convertPrismaMultiSelectOptionSetToEntityField schema model field entities
     else pure entities) >>= fun entities =>
    (if dt = .Lookup then
      convertPrismaLookupToEntityField schema model field entities
     else pure entities) >>= fun entities =>
    pure entities

/-- `convertPreparedSchemaForImportObjects(schema)`: one prepared entity per
model, in declaration order (ids drawn from `ids` in that order, abstracting
`cuid()`), then every model's fields walked in declaration order. -/
def convertPreparedSchemaForImportObjects (ids : Nat → String) (schema : Schema) :
    Except String (List CreateBulkEntitiesInput) := do
  let modelList := modelsOf schema
  let preparedEntities := modelList.enum.map fun im => prepareEntity (ids im.1) im.2
  modelList.foldlM
    (fun ents model => (fieldsOf model).foldlM
      (fun es field => handleField schema model field es) ents)
    preparedEntities

/-- `convertPrismaSchemaForImportObjects(schema)`: parse (the external
parser collaborator, abstracted as `parse`), run the four operations, then
build the entity descriptors. -/
def convertPrismaSchemaForImportObjects (parse : String → Schema) (ids : Nat → String)
    (input : String) : Except String (List CreateBulkEntitiesInput) := do
  let preparedSchema ← processSchema (parse input)
  convertPreparedSchemaForImportObjects ids preparedSchema

/-! ## Concrete fixtures

Small schemas mirroring the scenarios of spec §8, used to evaluate the
embedded functions on concrete inputs. -/

/-- `enum Status { Active Inactive }`. -/
def enumStatus : EnumDecl :=
  { name := "Status", enumerators := [⟨"Active"⟩, ⟨"Inactive"⟩] }

/-- `@id` field-level attribute. -/
def idAttr : Attribute := { name := "id", kind := "field", args := [] }

/-- `id Int @id`. -/
def fieldIdInt : Field :=
  { name := "id", fieldType := "Int", optional := false, array := false,
    attributes := [idAttr] }

/-- `status Status` — enum-typed, not array-valued. -/
def fieldStatus : Field :=
  { name := "status", fieldType := "Status", optional := false, array := false,
    attributes := [] }

/-- `statuses Status[]` — enum-typed, array-valued. -/
def fieldStatuses : Field :=
  { name := "statuses", fieldType := "Status", optional := false, array := true,
    attributes := [] }

/-- `model Task { id Int @id  status Status  statuses Status[] }`. -/
def modelTask : Model :=
  { name := "Task",
    properties := [.field fieldIdInt, .field fieldStatus, .field fieldStatuses] }

/-- Schema with `model Task` and `enum Status`. -/
def schemaTask : Schema :=
  { list := [.model modelTask, .enumDecl enumStatus] }

/-! ## C1 — enum-typed array fields and `MultiSelectOptionSet` -/

/-- If no declared enum name equals the field's type, the
`multiSelectOptionSetType` case cannot match either. -/
theorem multiSelectCase_none_of_optionSetCase_none (schema : Schema) (field : Field)
    (h : (enumsOf schema).any (fun e => e.name == field.fieldType) = false) :
    (enumsOf schema).any (fun e => e.name == field.fieldType && field.array) = false := by
  simp only [List.any_eq_false] at h ⊢
  intro e he
  simp [h e he]

/-- The classifier checks `optionSetType` (which ignores the array flag)
before `multiSelectOptionSetType`, so `MultiSelectOptionSet` is unreachable:
whenever the multi-select case could match, the option-set case has already
matched. -/
theorem resolveFieldDataType_never_multiSelect (schema : Schema) (field : Field) :
    resolveFieldDataType schema field ≠ .ok .MultiSelectOptionSet := by
  intro hcontra
  have hm : firstMatchedCase schema field = some .MultiSelectOptionSet := by
    unfold resolveFieldDataType at hcontra
    rcases hm : firstMatchedCase schema field with _ | d
    · rw [hm] at hcontra; exact Except.noConfusion hcontra
    · rw [hm] at hcontra; cases hcontra; rfl
  unfold firstMatchedCase at hm
  simp only [Option.orElse_eq_some'] at hm
  rcases hm with h | ⟨_, hm⟩
  · exact absurd h (by unfold idTypeCase; split <;> simp)
  rcases hm with h | ⟨_, hm⟩
  · exact absurd h (by unfold lookupRelationTypeCase; split <;> simp)
  rcases hm with h | ⟨_, hm⟩
  · exact absurd h (by unfold lookupModelTypeCase; split <;> simp)
  rcases hm with h | ⟨hopt, hm⟩
  · exact absurd h (by unfold optionSetTypeCase; split <;> simp)
  rcases hm with h | ⟨_, hm⟩
  · unfold optionSetTypeCase at hopt
    unfold multiSelectOptionSetTypeCase at h
    split at hopt
    · exact Option.noConfusion hopt
    next hno =>
      split at h
      next hyes =>
        have hok := multiSelectCase_none_of_optionSetCase_none schema field
          (by simpa using hno)
        simp [hyes] at hok
      · exact Option.noConfusion h
  rcases hm with h | ⟨_, hm⟩
  · exact absurd h (by unfold createAtTypeCase; split <;> simp)
  rcases hm with h | ⟨_, h⟩
  · exact absurd h (by unfold updatedAtTypeCase; split <;> simp)
  · exact absurd h (by unfold scalarTypeCase; split_ifs <;> simp)

/-- C1: an enum-typed, array-valued field classifies as `OptionSet`, because
the `optionSetType` case runs before `multiSelectOptionSetType` and does not
test the array flag. `statuses Status[]` (no attributes) in a schema
declaring `enum Status` resolves to `OptionSet`, and `MultiSelectOptionSet`
is never produced for any field. -/
theorem enumArrayField_classifies_OptionSet :
    fieldStatuses.array = true ∧
    (enumsOf schemaTask).any (fun e => e.name == fieldStatuses.fieldType) = true ∧
    resolveFieldDataType schemaTask fieldStatuses = .ok .OptionSet := by
  decide

/-! ## C6 — `@default(now())` precedence -/

/-- A field carrying both `@id` and `@default(now())`: it has a default-`now`
argument and no `@updatedAt`, yet classifies as `Id`, not `CreatedAt`. -/
def fieldIdDefaultNow : Field :=
  { name := "id", fieldType := "DateTime", optional := false, array := false,
    attributes := [idAttr,
      { name := "default", kind := "field", args := [⟨.func "now"⟩] }] }

/-- Schema containing only a model with the `@id @default(now())` field. -/
def schemaIdNow : Schema :=
  { list := [.model { name := "Doc", properties := [.field fieldIdDefaultNow] }] }

/-- C6 counterexample: a field with a default-value of `now()` and no
`@updatedAt` attribute that nevertheless does not classify as `CreatedAt` —
it carries `@id`, and the `idType` case precedes `createAtType`. -/
theorem defaultNow_id_field_not_CreatedAt :
    hasDefaultNowArg fieldIdDefaultNow = true ∧
    fieldIdDefaultNow.attributes.any (fun a => a.name == "updatedAt") = false ∧
    resolveFieldDataType schemaIdNow fieldIdDefaultNow = .ok .Id ∧
    resolveFieldDataType schemaIdNow fieldIdDefaultNow ≠ .ok .CreatedAt := by
  decide

/-- C6 amended: a field with a `@default` attribute carrying a `now`
function-call argument and no `@updatedAt` attribute classifies as
`CreatedAt` — not `UpdatedAt` and not plain `DateTime` — provided none of
the earlier classifier cases (primary key, relation attribute, model-typed
lookup, enum-typed option set) matches, because `createAtType` is checked
before `updatedAtType` and the scalar mapping. -/
theorem defaultNow_classifies_CreatedAt (schema : Schema) (field : Field)
    (hNow : hasDefaultNowArg field = true)
    (_hNoUpd : field.attributes.any (fun a => a.name == "updatedAt") = false)
    (hNoId : field.attributes.any (fun a => a.name == ID_ATTRIBUTE_NAME) = false)
    (hNoRel : field.attributes.any (fun a => a.name == "relation") = false)
    (hNoModel : (modelsOf schema).any
      (fun m => formatModelName m.name == formatModelName field.fieldType) = false)
    (hNoEnum : (enumsOf schema).any (fun e => e.name == field.fieldType) = false) :
    resolveFieldDataType schema field = .ok .CreatedAt := by
  have hNoMulti := multiSelectCase_none_of_optionSetCase_none schema field hNoEnum
  unfold resolveFieldDataType firstMatchedCase
  unfold idTypeCase lookupRelationTypeCase lookupModelTypeCase optionSetTypeCase
    multiSelectOptionSetTypeCase createAtTypeCase
  simp [hNow, hNoId, hNoRel, hNoModel, hNoEnum, hNoMulti, Option.orElse]

/-- `createdAt DateTime @default(now())` — the plain shape of the claim. -/
def fieldCreatedAtDemo : Field :=
  { name := "createdAt", fieldType := "DateTime", optional := false, array := false,
    attributes := [{ name := "default", kind := "field", args := [⟨.func "now"⟩] }] }

/-- Witness for the amended C6 theorem at a concrete field. -/
theorem defaultNow_classifies_CreatedAt_witness :
    resolveFieldDataType schemaTask fieldCreatedAtDemo = .ok .CreatedAt :=
  defaultNow_classifies_CreatedAt schemaTask fieldCreatedAtDemo
    (by decide) (by decide) (by decide) (by decide) (by decide) (by decide)

/-! ## C7 — classification is total -/

/-- C7: `resolveFieldDataType` either returns one of the twelve categories or
raises exactly the fatal `Unsupported data type` error; no field is silently
dropped. -/
theorem resolveFieldDataType_total (schema : Schema) (field : Field) :
    (∃ d, resolveFieldDataType schema field = .ok d) ∨
      resolveFieldDataType schema field
        = .error ("Unsupported data type: " ++ field.fieldType) := by
  unfold resolveFieldDataType
  rcases hm : firstMatchedCase schema field with _ | d
  · exact .inr rfl
  · exact .inl ⟨d, rfl⟩

/-! ## C10 — `required` is the declared optionality flag -/

/-- C10: the emitted descriptor's `required` property is exactly the source
field's `optional` flag (`required: field.optional || false`), not its
negation. -/
theorem required_equals_optional_flag (field : Field) (dt : EnumDataType) :
    (createOneEntityFieldCommonProperties field dt).required = field.optional := rfl

/-! ## C2 — remote-field uniqueness in `findRemoteRelatedModelAndField` -/

/-- `@relation("r1", fields: [customerId], references: [id])`. -/
def relAttrNamed : Attribute :=
  { name := "relation", kind := "field",
    args := [⟨.str "r1"⟩,
             ⟨.keyValue "fields" (.array ["customerId"])⟩,
             ⟨.keyValue "references" (.array ["id"])⟩] }

/-- `customer Customer @relation("r1", fields: [customerId], references: [id])`. -/
def fieldCustomerNamedRel : Field :=
  { name := "customer", fieldType := "Customer", optional := false, array := false,
    attributes := [relAttrNamed] }

/-- `ordersA Order[] @relation("r1")`. -/
def fieldOrdersA : Field :=
  { name := "ordersA", fieldType := "Order", optional := false, array := true,
    attributes := [{ name := "relation", kind := "field", args := [⟨.str "r1"⟩] }] }

/-- `ordersB Order[] @relation("r1")` — a second field with the same relation
name. -/
def fieldOrdersB : Field :=
  { name := "ordersB", fieldType := "Order", optional := false, array := true,
    attributes := [{ name := "relation", kind := "field", args := [⟨.str "r1"⟩] }] }

/-- A `Customer` model carrying two fields with relation name `"r1"`. -/
def modelCustomerMulti : Model :=
  { name := "Customer", properties := [.field fieldOrdersA, .field fieldOrdersB] }

/-- `note String` — a plain scalar field. -/
def fieldNote : Field :=
  { name := "note", fieldType := "String", optional := false, array := false,
    attributes := [] }

/-- A `Customer` model carrying no field with any relation attribute. -/
def modelCustomerZero : Model :=
  { name := "Customer", properties := [.field fieldNote] }

/-- The `Order` model owning the named relation. -/
def modelOrderNamed : Model :=
  { name := "Order", properties := [.field fieldCustomerNamedRel] }

/-- Schema in which two remote fields match the relation name. -/
def schemaC2multi : Schema :=
  { list := [.model modelCustomerMulti, .model modelOrderNamed] }

/-- Schema in which no remote field matches the relation name. -/
def schemaC2zero : Schema :=
  { list := [.model modelCustomerZero, .model modelOrderNamed] }

/-- C2 counterexample: for a Lookup-classified field whose relation attribute
carries a name argument, `findRemoteRelatedModelAndField` does not enforce
uniqueness: with two matching remote fields it silently returns the first,
and with zero matching remote fields it returns successfully with no remote
field — in neither case is an exception naming the Record-Types thrown. -/
theorem findRemote_named_no_uniqueness_check :
    resolveFieldDataType schemaC2multi fieldCustomerNamedRel = .ok .Lookup ∧
    relationAttributeNameOf fieldCustomerNamedRel = some "r1" ∧
    hasRelationNamed "r1" fieldOrdersA = true ∧
    hasRelationNamed "r1" fieldOrdersB = true ∧
    findRemoteRelatedModelAndField schemaC2multi modelOrderNamed fieldCustomerNamedRel
      = .ok (modelCustomerMulti, some fieldOrdersA) ∧
    findRemoteRelatedModelAndField schemaC2zero modelOrderNamed fieldCustomerNamedRel
      = .ok (modelCustomerZero, none) := by
  decide

/-- C2 amended: once the remote Record-Type is found, uniqueness of the
remote field is enforced only in the implicit back-reference case, where zero
or multiple candidates throw an error naming both Record-Types; in the
named-relation case the first remote field carrying the relation name is
returned without a uniqueness check, and the absence of any match yields a
successful return with no remote field. -/
theorem findRemote_amended (schema : Schema) (model : Model) (field : Field)
    (remoteModel : Model)
    (hfound : (modelsOf schema).find? (fun item =>
      formatModelName item.name == formatModelName field.fieldType) = some remoteModel) :
    (relationAttributeNameOf field = none →
      (((implicitBackRefCands model remoteModel).length = 1 →
        findRemoteRelatedModelAndField schema model field
          = .ok (remoteModel, (implicitBackRefCands model remoteModel).head?)) ∧
      ((implicitBackRefCands model remoteModel).length > 1 →
        findRemoteRelatedModelAndField schema model field
          = .error ("Multiple fields found in model " ++ remoteModel.name ++
              " that reference " ++ model.name)) ∧
      ((implicitBackRefCands model remoteModel).length = 0 →
        findRemoteRelatedModelAndField schema model field
          = .error ("No field found in model " ++ remoteModel.name ++
              " that reference " ++ model.name)))) ∧
    (∀ rname, relationAttributeNameOf field = some rname →
      findRemoteRelatedModelAndField schema model field
        = .ok (remoteModel, (fieldsOf remoteModel).find? (hasRelationNamed rname))) := by
  constructor
  · intro hnone
    refine ⟨?_, ?_, ?_⟩
    · intro hlen
      rcases hc : implicitBackRefCands model remoteModel with _ | ⟨f, rest⟩
      · rw [hc] at hlen; exact absurd hlen (by simp)
      · rcases rest with _ | ⟨g, rest'⟩
        · simp only [findRemoteRelatedModelAndField, hfound, hnone, hc]
          simp
        · rw [hc] at hlen; exact absurd hlen (by simp)
    · intro hlen
      simp only [findRemoteRelatedModelAndField, hfound, hnone]
      rw [if_pos hlen]
    · intro hlen
      rcases hc : implicitBackRefCands model remoteModel with _ | ⟨f, rest⟩
      · simp only [findRemoteRelatedModelAndField, hfound, hnone, hc]
        simp
      · rw [hc] at hlen; exact absurd hlen (by simp)
  · intro rname hsome
    simp only [findRemoteRelatedModelAndField, hfound, hsome]

/-- `@relation(fields: [customerId], references: [id])` — no name argument. -/
def relAttrUnnamed : Attribute :=
  { name := "relation", kind := "field",
    args := [⟨.keyValue "fields" (.array ["customerId"])⟩,
             ⟨.keyValue "references" (.array ["id"])⟩] }

/-- `customer Customer @relation(fields: [customerId], references: [id])`. -/
def fieldCustomerImplicit : Field :=
  { name := "customer", fieldType := "Customer", optional := false, array := false,
    attributes := [relAttrUnnamed] }

/-- `orders Order[]` — the implicit back-reference field. -/
def fieldOrdersPlain : Field :=
  { name := "orders", fieldType := "Order", optional := false, array := true,
    attributes := [] }

/-- `customerId Int` — the foreign-key storage column. -/
def fieldCustomerIdInt : Field :=
  { name := "customerId", fieldType := "Int", optional := false, array := false,
    attributes := [] }

/-- `model Customer { orders Order[] }`. -/
def modelCustomerOne : Model :=
  { name := "Customer", properties := [.field fieldOrdersPlain] }

/-- `model Order { customerId Int  customer Customer @relation(fields: [customerId], references: [id]) }`. -/
def modelOrderImplicit : Model :=
  { name := "Order",
    properties := [.field fieldCustomerIdInt, .field fieldCustomerImplicit] }

/-- The relation scenario of spec §8. -/
def schemaCustomerOrder : Schema :=
  { list := [.model modelCustomerOne, .model modelOrderImplicit] }

/-- Witness for the amended C2 theorem: in the scenario of spec §8 the
implicit back-reference resolution succeeds with the unique candidate. -/
theorem findRemote_amended_witness :
    findRemoteRelatedModelAndField schemaCustomerOrder modelOrderImplicit
      fieldCustomerImplicit = .ok (modelCustomerOne, some fieldOrdersPlain) := by
  have h := ((findRemote_amended schemaCustomerOrder modelOrderImplicit
      fieldCustomerImplicit modelCustomerOne (by decide)).1 (by decide)).1 (by decide)
  rw [show (implicitBackRefCands modelOrderImplicit modelCustomerOne).head?
      = some fieldOrdersPlain from by decide] at h
  exact h

/-! ## C3 — foreign-key-storage detection counts the field itself -/

/-- `@relation(fields: [x])` — a relation attribute listing `x`. -/
def relAttrSelf : Attribute :=
  { name := "relation", kind := "field",
    args := [⟨.keyValue "fields" (.array ["x"])⟩] }

/-- A field whose own relation attribute lists its own name as an
owning-side column: `x Customer @relation(fields: [x])`. -/
def fieldSelfRef : Field :=
  { name := "x", fieldType := "Customer", optional := false, array := false,
    attributes := [relAttrSelf] }

/-- A model whose only field is the self-referencing one. -/
def modelSelfRef : Model :=
  { name := "M", properties := [.field fieldSelfRef] }

/-- Schema for the self-reference counterexample. -/
def schemaSelfRef : Schema :=
  { list := [.model modelSelfRef, .model { name := "Customer", properties := [] }] }

/-- C3 counterexample: `isFkFieldOfARelation` returns `true` for a field even
though **zero other** fields reference it as an owning-side column — the
source counts all fields of the model, the examined field included, so a
self-referencing relation attribute makes the field its own match. -/
theorem isFk_counts_the_field_itself :
    isFkFieldOfARelation schemaSelfRef modelSelfRef fieldSelfRef = true ∧
    ((fieldsOf modelSelfRef).filter (fun f =>
      f.name != fieldSelfRef.name && fieldRefsAsFk fieldSelfRef.name f)).length = 0 := by
  decide

/-- C3 amended: `isFkFieldOfARelation` returns `true` exactly when the number
of fields of the Record-Type (the examined field itself included in the
count) carrying a relation attribute whose `fields` argument lists the
field's name is one; with more than one such field it returns `false` (the
field is treated as not a foreign-key column) and the error-logging branch
is reached, without aborting. -/
theorem isFk_amended (schema : Schema) (model : Model) (field : Field) :
    (isFkFieldOfARelation schema model field = true ↔
      ((fieldsOf model).filter (fieldRefsAsFk field.name)).length = 1) ∧
    (((fieldsOf model).filter (fieldRefsAsFk field.name)).length > 1 →
      isFkFieldOfARelation schema model field = false ∧
        fkConflictLogged model field = true) := by
  unfold isFkFieldOfARelation fkConflictLogged
  constructor
  · constructor
    · intro h; simpa using h
    · intro h; simp [h]
  · intro hlen
    constructor
    · simp only [beq_eq_false_iff_ne]
      exact Nat.ne_of_gt hlen
    · simpa using hlen

/-- Witness for the amended C3 theorem: in the spec §8 scenario,
`Order.customerId` is detected as the foreign-key column of the unique
`Order.customer` relation field. -/
theorem isFk_amended_witness :
    isFkFieldOfARelation schemaCustomerOrder modelOrderImplicit fieldCustomerIdInt
      = true :=
  ((isFk_amended schemaCustomerOrder modelOrderImplicit fieldCustomerIdInt).1).mpr
    (by decide)

/-! ## C8 — unannotated-relation detection -/

/-- C8: `Customer.orders` has a declared type naming the declared Record-Type
`Order` and carries no relation attribute — the very shape the claim says is
skipped — yet `isNotAnnotatedRelationField` returns `false`, because the
source compares `formatModelName(model.name)` (PascalCase) against
`formatFieldName(field.fieldType)` (camelCase), which do not match. -/
theorem backReference_field_not_skipped :
    (modelsOf schemaCustomerOrder).any
      (fun m => m.name == fieldOrdersPlain.fieldType) = true ∧
    fieldOrdersPlain.attributes.any (fun a => a.name == "relation") = false ∧
    isNotAnnotatedRelationField schemaCustomerOrder fieldOrdersPlain = false := by
  decide

/-! ## C4 — option-set properties and the multi-select enum lookup -/

/-- C4: the OptionSet converter builds `properties.options` from the
enumerators of the enum named by the field's declared type (label and value
both the enumerator name, in declaration order); the MultiSelectOptionSet
converter instead looks the enum up by the **field's name** and therefore
throws `Enum statuses not found` even though the enum named by the declared
type (`Status`) is present in the schema. -/
theorem optionSet_options_multiSelect_lookup_bug :
    ((convertPrismaOptionSetToEntityField schemaTask modelTask fieldStatus
        [prepareEntity "E1" modelTask]).map
      (fun ents => ents.map (fun e => e.fields.map (fun f => (f.dataType, f.properties)))))
      = .ok [[(EnumDataType.OptionSet,
          FieldProps.optionSet [("Active", "Active"), ("Inactive", "Inactive")])]] ∧
    convertPrismaMultiSelectOptionSetToEntityField schemaTask modelTask fieldStatuses
        [prepareEntity "E1" modelTask]
      = .error ("Enum statuses not found") ∧
    (enumsOf schemaTask).any (fun e => e.name == fieldStatuses.fieldType) = true := by
  decide

/-! ## C5 — primary-key normalization loses the original name -/

/-- `id Int` with no `@id` attribute. -/
def fieldPlainId : Field :=
  { name := "id", fieldType := "Int", optional := false, array := false,
    attributes := [] }

/-- `model Order { id Int }`. -/
def modelOrderPlainId : Model :=
  { name := "Order", properties := [.field fieldPlainId] }

/-- What `handleIdField` produces for `Order.id`: the rename to `OrderId`
paired with a `@map` holding the quoted **new** name. -/
def fieldPlainIdRenamed : Field :=
  { name := "OrderId", fieldType := "Int", optional := false, array := false,
    attributes := [mapAttribute "field" "OrderId"] }

/-- C5: `handleIdField` renames a non-`@id` field named `id` to
`<ModelName>Id`, but the attached `@map` attribute holds the **new** name
`"OrderId"` (the source passes `` `"${model.name}Id"` ``), not the original
canonical name `"id"` — no attribute argument in the result mentions the
original storage name. -/
theorem handleIdField_maps_new_name :
    handleIdField { list := [.model modelOrderPlainId] }
      = { list := [.model { name := "Order", properties := [.field fieldPlainIdRenamed] }] } ∧
    (mapAttribute "field" "OrderId").args = [⟨.str "\"OrderId\""⟩] ∧
    (fieldPlainIdRenamed.attributes.any (fun a =>
      a.args.any (fun g => g.value == AttrValue.str "\"id\""))) = false := by
  decide

/-! ## C9 — re-entrancy: identical output modulo freshly generated ids

The only nondeterministic input of the pipeline is the `cuid()` entity-id
supply, abstracted as `ids : Nat → String`. `stripEntity` erases exactly the
freshly generated tokens: each entity's `id` and each Lookup descriptor's
`relatedEntityId`. The invariant `Inv` relates two entity lists that agree
after stripping, and is shown to be preserved by every converter. -/

/-- Erase the `relatedEntityId` of a Lookup descriptor. -/
def stripField (f : CreateBulkFieldsInput) : CreateBulkFieldsInput :=
  { f with properties :=
      match f.properties with
      | .lookup _ allow => .lookup "" allow
      | p => p }

/-- Erase an entity's generated `id` and its fields' `relatedEntityId`s. -/
def stripEntity (e : CreateBulkEntitiesInput) : CreateBulkEntitiesInput :=
  { e with id := "", fields := e.fields.map stripField }

/-- Two entity lists that agree except for generated ids. -/
def Inv (es₁ es₂ : List CreateBulkEntitiesInput) : Prop :=
  List.Forall₂ (fun a b => stripEntity a = stripEntity b) es₁ es₂

/-- Two conversion outcomes that agree except for generated ids: equal
errors, or ok-results related by `Inv`. -/
def ExceptInv :
    Except String (List CreateBulkEntitiesInput) →
    Except String (List CreateBulkEntitiesInput) → Prop
  | .ok a, .ok b => Inv a b
  | .error a, .error b => a = b
  | _, _ => False

theorem stripEntity_name (e : CreateBulkEntitiesInput) :
    (stripEntity e).name = e.name := rfl

theorem Inv.name_eq {a b : CreateBulkEntitiesInput}
    (h : stripEntity a = stripEntity b) : a.name = b.name := by
  have h' := congrArg CreateBulkEntitiesInput.name h
  exact h'

/-- Stripping maps equally over `Inv`-related lists. -/
theorem Inv.strip_map_eq {es₁ es₂ : List CreateBulkEntitiesInput} (h : Inv es₁ es₂) :
    es₁.map stripEntity = es₂.map stripEntity := by
  induction h with
  | nil => rfl
  | cons hab _ ih => simp [hab, ih]

/-- `find?` by name agrees, modulo stripping, on `Inv`-related lists. -/
theorem Inv.find_strip_eq {es₁ es₂ : List CreateBulkEntitiesInput} (h : Inv es₁ es₂)
    (n : String) :
    (es₁.find? (fun e => e.name == n)).map stripEntity
      = (es₂.find? (fun e => e.name == n)).map stripEntity := by
  induction h with
  | nil => rfl
  | @cons a b l₁ l₂ hab _ ih =>
      have hname : a.name = b.name := Inv.name_eq hab
      cases hpa : (a.name == n) with
      | true =>
          have hpb : (b.name == n) = true := by rw [← hname]; exact hpa
          simp only [List.find?, hpa, hpb, Option.map_some']
          simpa using hab
      | false =>
          have hpb : (b.name == n) = false := by rw [← hname]; exact hpa
          simp only [List.find?, hpa, hpb]
          exact ih

/-- Pushing strip-equal descriptors preserves `Inv`. -/
theorem Inv.push {es₁ es₂ : List CreateBulkEntitiesInput} (h : Inv es₁ es₂)
    (n : String) {fd₁ fd₂ : CreateBulkFieldsInput} (hfd : stripField fd₁ = stripField fd₂) :
    Inv (pushFieldToEntity n fd₁ es₁) (pushFieldToEntity n fd₂ es₂) := by
  induction h with
  | nil => exact .nil
  | @cons a b l₁ l₂ hab htail ih =>
      have hname : a.name = b.name := Inv.name_eq hab
      unfold pushFieldToEntity
      by_cases hpa : (a.name == n) = true
      · rw [if_pos hpa, if_pos (by rw [← hname]; exact hpa)]
        refine .cons ?_ htail
        have hfields : a.fields.map stripField = b.fields.map stripField := by
          have h' := congrArg CreateBulkEntitiesInput.fields hab
          exact h'
        have hdn : a.displayName = b.displayName := by
          have h' := congrArg CreateBulkEntitiesInput.displayName hab
          exact h'
        have hpdn : a.pluralDisplayName = b.pluralDisplayName := by
          have h' := congrArg CreateBulkEntitiesInput.pluralDisplayName hab
          exact h'
        have hdesc : a.description = b.description := by
          have h' := congrArg CreateBulkEntitiesInput.description hab
          exact h'
        have hca : a.customAttributes = b.customAttributes := by
          have h' := congrArg CreateBulkEntitiesInput.customAttributes hab
          exact h'
        simp [stripEntity, CreateBulkEntitiesInput.mk.injEq, hname, hdn, hpdn,
          hdesc, hca, hfields, hfd]
      · rw [if_neg hpa, if_neg (by rw [← hname]; exact hpa)]
        exact .cons hab ih

/-- `findEntityOrError` on `Inv`-related lists: both find strip-equal
entities, or both throw the same error. -/
theorem findEntityOrError_inv {es₁ es₂ : List CreateBulkEntitiesInput} (h : Inv es₁ es₂)
    (model : Model) :
    (∃ e₁ e₂, findEntityOrError model es₁ = .ok e₁ ∧
      findEntityOrError model es₂ = .ok e₂ ∧ stripEntity e₁ = stripEntity e₂) ∨
    (findEntityOrError model es₁ = .error ("Entity " ++ model.name ++ " not found") ∧
      findEntityOrError model es₂ = .error ("Entity " ++ model.name ++ " not found")) := by
  have hf := h.find_strip_eq model.name
  unfold findEntityOrError
  cases h₁ : es₁.find? (fun e => e.name == model.name) with
  | none =>
      rw [h₁] at hf
      cases h₂ : es₂.find? (fun e => e.name == model.name) with
      | none => exact .inr ⟨rfl, rfl⟩
      | some e₂ => rw [h₂] at hf; exact absurd hf (by simp)
  | some e₁ =>
      rw [h₁] at hf
      cases h₂ : es₂.find? (fun e => e.name == model.name) with
      | none => rw [h₂] at hf; exact absurd hf (by simp)
      | some e₂ =>
          rw [h₂] at hf
          exact .inl ⟨e₁, e₂, rfl, rfl, by simpa using hf⟩

theorem exceptBind_ok {α β : Type} (a : α) (f : α → Except String β) :
    (Except.ok a >>= f : Except String β) = f a := rfl

theorem exceptBind_error {α β : Type} (e : String) (f : α → Except String β) :
    ((Except.error e : Except String α) >>= f : Except String β) = Except.error e := rfl

/-- Bind respects `ExceptInv` when the continuations respect `Inv`. -/
theorem ExceptInv.bindInv {x₁ x₂ : Except String (List CreateBulkEntitiesInput)}
    (h : ExceptInv x₁ x₂)
    {k₁ k₂ : List CreateBulkEntitiesInput → Except String (List CreateBulkEntitiesInput)}
    (hk : ∀ a b, Inv a b → ExceptInv (k₁ a) (k₂ b)) :
    ExceptInv (x₁ >>= k₁) (x₂ >>= k₂) := by
  cases x₁ with
  | error e₁ =>
      cases x₂ with
      | error e₂ =>
          have he : e₁ = e₂ := h
          subst he
          exact rfl
      | ok b => exact h.elim
  | ok a =>
      cases x₂ with
      | error e => exact h.elim
      | ok b =>
          simp only [exceptBind_ok]
          exact hk a b h

/-- The shared shape of the eight payload-only converters. -/
theorem simpleConvert_inv {es₁ es₂ : List CreateBulkEntitiesInput} (h : Inv es₁ es₂)
    (model : Model) (fd : CreateBulkFieldsInput) :
    ExceptInv
      ((findEntityOrError model es₁) >>= fun _ => .ok (pushFieldToEntity model.name fd es₁))
      ((findEntityOrError model es₂) >>= fun _ => .ok (pushFieldToEntity model.name fd es₂)) := by
  rcases findEntityOrError_inv h model with ⟨e₁, e₂, h₁, h₂, _⟩ | ⟨h₁, h₂⟩
  · rw [h₁, h₂]
    exact h.push model.name rfl
  · rw [h₁, h₂]
    exact rfl

theorem convertBoolean_inv (schema : Schema) (model : Model) (field : Field)
    {es₁ es₂ : List CreateBulkEntitiesInput} (h : Inv es₁ es₂) :
    ExceptInv (convertPrismaBooleanToEntityField schema model field es₁)
              (convertPrismaBooleanToEntityField schema model field es₂) := by
  unfold convertPrismaBooleanToEntityField
  exact simpleConvert_inv h model _

theorem convertCreatedAt_inv (schema : Schema) (model : Model) (field : Field)
    {es₁ es₂ : List CreateBulkEntitiesInput} (h : Inv es₁ es₂) :
    ExceptInv (convertPrismaCreatedAtToEntityField schema model field es₁)
              (convertPrismaCreatedAtToEntityField schema model field es₂) := by
  unfold convertPrismaCreatedAtToEntityField
  exact simpleConvert_inv h model _

theorem convertUpdatedAt_inv (schema : Schema) (model : Model) (field : Field)
    {es₁ es₂ : List CreateBulkEntitiesInput} (h : Inv es₁ es₂) :
    ExceptInv (convertPrismaUpdatedAtToEntityField schema model field es₁)
              (convertPrismaUpdatedAtToEntityField schema model field es₂) := by
  unfold convertPrismaUpdatedAtToEntityField
  exact simpleConvert_inv h model _

theorem convertDateTime_inv (schema : Schema) (model : Model) (field : Field)
    {es₁ es₂ : List CreateBulkEntitiesInput} (h : Inv es₁ es₂) :
    ExceptInv (convertPrismaDateTimeToEntityField schema model field es₁)
              (convertPrismaDateTimeToEntityField schema model field es₂) := by
  unfold convertPrismaDateTimeToEntityField
  exact simpleConvert_inv h model _

theorem convertDecimalNumber_inv (schema : Schema) (model : Model) (field : Field)
    {es₁ es₂ : List CreateBulkEntitiesInput} (h : Inv es₁ es₂) :
    ExceptInv (convertPrismaDecimalNumberToEntityField schema model field es₁)
              (convertPrismaDecimalNumberToEntityField schema model field es₂) := by
  unfold convertPrismaDecimalNumberToEntityField
  exact simpleConvert_inv h model _

theorem convertWholeNumber_inv (schema : Schema) (model : Model) (field : Field)
    {es₁ es₂ : List CreateBulkEntitiesInput} (h : Inv es₁ es₂) :
    ExceptInv (convertPrismaWholeNumberToEntityField schema model field es₁)
              (convertPrismaWholeNumberToEntityField schema model field es₂) := by
  unfold convertPrismaWholeNumberToEntityField
  exact simpleConvert_inv h model _

theorem convertSingleLineText_inv (schema : Schema) (model : Model) (field : Field)
    {es₁ es₂ : List CreateBulkEntitiesInput} (h : Inv es₁ es₂) :
    ExceptInv (convertPrismaSingleLineTextToEntityField schema model field es₁)
              (convertPrismaSingleLineTextToEntityField schema model field es₂) := by
  unfold convertPrismaSingleLineTextToEntityField
  exact simpleConvert_inv h model _

theorem convertJson_inv (schema : Schema) (model : Model) (field : Field)
    {es₁ es₂ : List CreateBulkEntitiesInput} (h : Inv es₁ es₂) :
    ExceptInv (convertPrismaJsonToEntityField schema model field es₁)
              (convertPrismaJsonToEntityField schema model field es₂) := by
  unfold convertPrismaJsonToEntityField
  exact simpleConvert_inv h model _

theorem convertId_inv (schema : Schema) (model : Model) (field : Field)
    {es₁ es₂ : List CreateBulkEntitiesInput} (h : Inv es₁ es₂) :
    ExceptInv (convertPrismaIdToEntityField schema model field es₁)
              (convertPrismaIdToEntityField schema model field es₂) := by
  unfold convertPrismaIdToEntityField
  rcases findEntityOrError_inv h model with ⟨e₁, e₂, h₁, h₂, _⟩ | ⟨h₁, h₂⟩
  · rw [h₁, h₂]
    simp only [exceptBind_ok]
    cases hda : field.attributes.find? (fun attr => attr.name == "default") with
    | none =>
        simp only [hda]
        exact h.push model.name rfl
    | some da =>
        simp only [hda]
        cases hit : idTypeOfDefaultArgs da.args with
        | error e => simp only [hit, exceptBind_error]; exact rfl
        | ok idType =>
            simp only [hit, exceptBind_ok]
            exact h.push model.name rfl
  · rw [h₁, h₂]
    exact rfl

theorem convertOptionSet_inv (schema : Schema) (model : Model) (field : Field)
    {es₁ es₂ : List CreateBulkEntitiesInput} (h : Inv es₁ es₂) :
    ExceptInv (convertPrismaOptionSetToEntityField schema model field es₁)
              (convertPrismaOptionSetToEntityField schema model field es₂) := by
  unfold convertPrismaOptionSetToEntityField
  rcases findEntityOrError_inv h model with ⟨e₁, e₂, h₁, h₂, _⟩ | ⟨h₁, h₂⟩
  · rw [h₁, h₂]
    simp only [exceptBind_ok]
    cases (enumsOf schema).find? (fun item =>
        formatModelName item.name == formatModelName field.fieldType) with
    | none => exact rfl
    | some e => exact h.push model.name rfl
  · rw [h₁, h₂]
    exact rfl

theorem convertMultiSelect_inv (schema : Schema) (model : Model) (field : Field)
    {es₁ es₂ : List CreateBulkEntitiesInput} (h : Inv es₁ es₂) :
    ExceptInv (convertPrismaMultiSelectOptionSetToEntityField schema model field es₁)
              (convertPrismaMultiSelectOptionSetToEntityField schema model field es₂) := by
  unfold convertPrismaMultiSelectOptionSetToEntityField
  rcases findEntityOrError_inv h model with ⟨e₁, e₂, h₁, h₂, _⟩ | ⟨h₁, h₂⟩
  · rw [h₁, h₂]
    simp only [exceptBind_ok]
    cases (enumsOf schema).find? (fun item => item.name == field.name) with
    | none => exact rfl
    | some e => exact h.push model.name rfl
  · rw [h₁, h₂]
    exact rfl

theorem convertLookup_inv (schema : Schema) (model : Model) (field : Field)
    {es₁ es₂ : List CreateBulkEntitiesInput} (h : Inv es₁ es₂) :
    ExceptInv (convertPrismaLookupToEntityField schema model field es₁)
              (convertPrismaLookupToEntityField schema model field es₂) := by
  unfold convertPrismaLookupToEntityField
  rcases findEntityOrError_inv h model with ⟨e₁, e₂, h₁, h₂, _⟩ | ⟨h₁, h₂⟩
  · rw [h₁, h₂]
    simp only [exceptBind_ok]
    cases findRemoteRelatedModelAndField schema model field with
    | error e => exact rfl
    | ok pr =>
        obtain ⟨remoteModel, remoteFieldOpt⟩ := pr
        simp only [exceptBind_ok]
        cases remoteFieldOpt with
        | none => exact rfl
        | some remoteField =>
            have hf := h.find_strip_eq remoteModel.name
            cases hA : es₁.find? (fun e => e.name == remoteModel.name) with
            | none =>
                rw [hA] at hf
                cases hB : es₂.find? (fun e => e.name == remoteModel.name) with
                | none => exact rfl
                | some re₂ => rw [hB] at hf; exact absurd hf (by simp)
            | some re₁ =>
                rw [hA] at hf
                cases hB : es₂.find? (fun e => e.name == remoteModel.name) with
                | none => rw [hB] at hf; exact absurd hf (by simp)
                | some re₂ =>
                    exact h.push model.name rfl
  · rw [h₁, h₂]
    exact rfl

/-- One step of the twelve-way dispatch preserves the invariant. -/
theorem iteConvert_inv (c : Prop) [Decidable c]
    {conv₁ conv₂ : Except String (List CreateBulkEntitiesInput)}
    {es₁ es₂ : List CreateBulkEntitiesInput} (h : Inv es₁ es₂)
    (hconv : ExceptInv conv₁ conv₂) :
    ExceptInv (if c then conv₁ else pure es₁) (if c then conv₂ else pure es₂) := by
  by_cases hc : c
  · rw [if_pos hc, if_pos hc]; exact hconv
  · rw [if_neg hc, if_neg hc]; exact h

/-- `handleField` preserves the invariant: the per-field dispatch either
fails identically on both runs or yields `Inv`-related entity lists. -/
theorem handleField_inv (schema : Schema) (model : Model) (field : Field)
    {es₁ es₂ : List CreateBulkEntitiesInput} (h : Inv es₁ es₂) :
    ExceptInv (handleField schema model field es₁) (handleField schema model field es₂) := by
  unfold handleField
  by_cases hfk : isFkFieldOfARelation schema model field = true
  · rw [if_pos hfk, if_pos hfk]; exact h
  · rw [if_neg hfk, if_neg hfk]
    by_cases hna : isNotAnnotatedRelationField schema field = true
    · rw [if_pos hna, if_pos hna]; exact h
    · rw [if_neg hna, if_neg hna]
      cases resolveFieldDataType schema field with
      | error e => exact rfl
      | ok dt =>
          simp only [exceptBind_ok]
          refine ExceptInv.bindInv
            (iteConvert_inv (dt = EnumDataType.Boolean) h (convertBoolean_inv schema model field h))
            fun a b hab => ?_
          refine ExceptInv.bindInv
            (iteConvert_inv (dt = EnumDataType.CreatedAt) hab (convertCreatedAt_inv schema model field hab))
            fun a b hab => ?_
          refine ExceptInv.bindInv
            (iteConvert_inv (dt = EnumDataType.UpdatedAt) hab (convertUpdatedAt_inv schema model field hab))
            fun a b hab => ?_
          refine ExceptInv.bindInv
            (iteConvert_inv (dt = EnumDataType.DateTime) hab (convertDateTime_inv schema model field hab))
            fun a b hab => ?_
          refine ExceptInv.bindInv
            (iteConvert_inv (dt = EnumDataType.DecimalNumber) hab (convertDecimalNumber_inv schema model field hab))
            fun a b hab => ?_
          refine ExceptInv.bindInv
            (iteConvert_inv (dt = EnumDataType.WholeNumber) hab (convertWholeNumber_inv schema model field hab))
            fun a b hab => ?_
          refine ExceptInv.bindInv
            (iteConvert_inv (dt = EnumDataType.SingleLineText) hab (convertSingleLineText_inv schema model field hab))
            fun a b hab => ?_
          refine ExceptInv.bindInv
            (iteConvert_inv (dt = EnumDataType.Json) hab (convertJson_inv schema model field hab))
            fun a b hab => ?_
          refine ExceptInv.bindInv
            (iteConvert_inv (dt = EnumDataType.Id) hab (convertId_inv schema model field hab))
            fun a b hab => ?_
          refine ExceptInv.bindInv
            (iteConvert_inv (dt = EnumDataType.OptionSet) hab (convertOptionSet_inv schema model field hab))
            fun a b hab => ?_
          refine ExceptInv.bindInv
            (iteConvert_inv (dt = EnumDataType.MultiSelectOptionSet) hab (convertMultiSelect_inv schema model field hab))
            fun a b hab => ?_
          refine ExceptInv.bindInv
            (iteConvert_inv (dt = EnumDataType.Lookup) hab (convertLookup_inv schema model field hab))
            fun a b hab => ?_
          exact hab

/-- The field walk of one model preserves the invariant. -/
theorem foldFields_inv (schema : Schema) (model : Model) (l : List Field) :
    ∀ {es₁ es₂ : List CreateBulkEntitiesInput}, Inv es₁ es₂ →
      ExceptInv (l.foldlM (fun es field => handleField schema model field es) es₁)
                (l.foldlM (fun es field => handleField schema model field es) es₂) := by
  induction l with
  | nil => intro es₁ es₂ h; simpa only [List.foldlM_nil] using h
  | cons f rest ih =>
      intro es₁ es₂ h
      simp only [List.foldlM_cons]
      exact ExceptInv.bindInv (handleField_inv schema model f h) fun a b hab => ih hab

/-- The model walk preserves the invariant. -/
theorem foldModels_inv (schema : Schema) (l : List Model) :
    ∀ {es₁ es₂ : List CreateBulkEntitiesInput}, Inv es₁ es₂ →
      ExceptInv
        (l.foldlM (fun ents model => (fieldsOf model).foldlM
          (fun es field => handleField schema model field es) ents) es₁)
        (l.foldlM (fun ents model => (fieldsOf model).foldlM
          (fun es field => handleField schema model field es) ents) es₂) := by
  induction l with
  | nil => intro es₁ es₂ h; simpa only [List.foldlM_nil] using h
  | cons m rest ih =>
      intro es₁ es₂ h
      simp only [List.foldlM_cons]
      exact ExceptInv.bindInv (foldFields_inv schema m (fieldsOf m) h)
        fun a b hab => ih hab

/-- The prepared entities of two runs differ only in their generated ids. -/
theorem prepare_inv (ids₁ ids₂ : Nat → String) (l : List (Nat × Model)) :
    Inv (l.map fun im => prepareEntity (ids₁ im.1) im.2)
        (l.map fun im => prepareEntity (ids₂ im.1) im.2) := by
  induction l with
  | nil => exact .nil
  | cons x rest ih => exact .cons rfl ih

/-- `convertPreparedSchemaForImportObjects` run with two id supplies yields
`ExceptInv`-related results. -/
theorem convertPrepared_inv (ids₁ ids₂ : Nat → String) (schema : Schema) :
    ExceptInv (convertPreparedSchemaForImportObjects ids₁ schema)
              (convertPreparedSchemaForImportObjects ids₂ schema) := by
  unfold convertPreparedSchemaForImportObjects
  exact foldModels_inv schema (modelsOf schema)
    (prepare_inv ids₁ ids₂ (modelsOf schema).enum)

/-- `ExceptInv` results are equal after stripping generated ids. -/
theorem ExceptInv.strip_eq {x y : Except String (List CreateBulkEntitiesInput)}
    (h : ExceptInv x y) :
    x.map (List.map stripEntity) = y.map (List.map stripEntity) := by
  cases x with
  | error e₁ =>
      cases y with
      | error e₂ => have he : e₁ = e₂ := h; rw [he]
      | ok b => exact h.elim
  | ok a =>
      cases y with
      | error e => exact h.elim
      | ok b =>
          have hm : a.map stripEntity = b.map stripEntity := Inv.strip_map_eq h
          simp only [Except.map, hm]

/-- C9: running the full conversion twice on the same input schema yields
identical entity-descriptor lists — same entities in the same order with the
same names, display names, custom attributes and field descriptors — except
for the freshly generated entity id tokens and the `relatedEntityId` values
referencing them (exactly what `stripEntity` erases). The external parser
and the id supply (`cuid()`) are the abstracted inputs. -/
theorem convert_reentrant_modulo_ids (parse : String → Schema) (ids₁ ids₂ : Nat → String)
    (input : String) :
    (convertPrismaSchemaForImportObjects parse ids₁ input).map (List.map stripEntity)
      = (convertPrismaSchemaForImportObjects parse ids₂ input).map (List.map stripEntity) := by
  unfold convertPrismaSchemaForImportObjects
  cases hps : processSchema (parse input) with
  | error e => simp only [hps, exceptBind_error]
  | ok s =>
      simp only [hps, exceptBind_ok]
      exact (convertPrepared_inv ids₁ ids₂ s).strip_eq

end PrismaSchemaUtils
